import Mathlib

/-!
Verification of the profile service's batch lookup path
(`hotelReservation/services/profile/server.go`, `GetProfiles`) and of the
instrumentation wrapper (`Span` / `StartSpan` / `Span.Finish`).

Modelling notes.

* The external collaborators (memcached, mongo, the JSON codec) are an
  explicit environment `Env` of pure functions: `cache` is the memcached
  contents, `cacheUp` whether `GetMulti` returns a connectivity error,
  `unmarshal`/`marshal` the JSON codec, `store` the mongo collection
  (`none` = NotFound or store fault, the code treats them identically).

* `GetProfiles` is sequentialized.  In the Go code the per-miss goroutines
  append to `hotels` under a mutex and the cache-hit loop iterates a map in
  unspecified order, so the real list is some permutation of the one built
  here; every property stated below (membership, length, counts, which
  effects occur) is invariant under permutation, so the fixed order
  `hits ++ misses` over `dedup` order loses nothing.

* `log.Panic` (the memcached connectivity fault) is the `Except.error`
  branch; the error value records the effects performed before the panic.
  All other returns are `Except.ok` with the literal `return res, nil`.

* Effects on the outside world (which key lists were passed to `GetMulti`,
  which ids were fetched from mongo, which `Set` write-backs were issued)
  are collected in `Effects`.
-/

namespace ProfileSvc

/-- `pb.Hotel` (profile record).  `{}` is Go's zero value `new(pb.Hotel)`. -/
structure Hotel where
  id : String := ""
  name : String := ""
  phoneNumber : String := ""
  description : String := ""
deriving DecidableEq, Repr

/-- Go's `new(pb.Hotel)` zero value. -/
def Hotel.zero : Hotel := {}

/-- The external world `GetProfiles` interacts with. -/
structure Env where
  /-- `false` iff `MemcClient.GetMulti` returns an error other than
  `ErrCacheMiss` (cache unreachable). -/
  cacheUp : Bool
  /-- memcached contents: key to serialized payload (`Item.Value`). -/
  cache : String → Option String
  /-- `json.Unmarshal` into a `pb.Hotel`; `none` = decode error, in which
  case the Go target struct keeps its zero value. -/
  unmarshal : String → Option Hotel
  /-- mongo `Find(bson.M{"id": id}).One`; `none` = NotFound or store fault
  (the code only sees a non-nil `err` either way, and the target struct
  keeps its zero value). -/
  store : String → Option Hotel
  /-- `json.Marshal`; `none` = marshal error, in which case `profJson` is
  nil and `string(profJson) = ""`. -/
  marshal : Hotel → Option String

/-- Externally visible calls made during one `GetProfiles` request. -/
structure Effects where
  /-- Key collections passed to `MemcClient.GetMulti`, one per call. -/
  cacheReads : List (List String) := []
  /-- Ids queried against mongo, one entry per `Find(...).One` call. -/
  storeFetches : List String := []
  /-- `MemcClient.Set` calls issued: (key, value) pairs. -/
  writeBacks : List (String × String) := []
deriving DecidableEq, Repr

/-- The pair `(*pb.Result, error)` returned by `GetProfiles`, plus the
effect log. -/
structure Outcome where
  hotels : List Hotel
  err : Option String
  effects : Effects
deriving DecidableEq, Repr

/-- Lines 161-166: the keys of `profileMap` after the dedup loop — the
distinct identifiers of the request. -/
def dedupIds (req : List String) : List String := req.dedup

/-- Line 168: the mapping returned by `GetMulti(hotelIds)` — one entry per
distinct requested key present in the cache (memcached returns a map, so
duplicate keys in `hotelIds` cannot yield duplicate entries). -/
def cacheHits (env : Env) (req : List String) : List (String × String) :=
  (dedupIds req).filterMap fun id => (env.cache id).map fun v => (id, v)

/-- Lines 177-178: `hotelProf := new(pb.Hotel); json.Unmarshal(item.Value,
hotelProf)` — the `Unmarshal` error is ignored, so on a decode failure the
zero value is used. -/
def hitRecord (env : Env) (v : String) : Hotel := (env.unmarshal v).getD {}

/-- Lines 173-181: the ids remaining in `profileMap` after
`delete(profileMap, hotelId)` ran for every key of `resMap`. -/
def pendingIds (env : Env) (req : List String) : List String :=
  (dedupIds req).filter fun id => (env.cache id).isNone

/-- Lines 185-212, one goroutine: fetch from mongo (on error `hotelProf`
keeps the zero value, line 190), append `hotelProf` unconditionally
(line 200), marshal it (on error `profJson` is nil so the value is `""`)
and issue the `Set` write-back unconditionally (line 210).  Returns the
appended record and the issued write-back. -/
def fetchTask (env : Env) (id : String) : Hotel × String × String :=
  ((env.store id).getD {}, id,
    (env.marshal ((env.store id).getD {})).getD "")

/-- Records appended by the cache-hit loop, lines 173-181. -/
def hitHotels (env : Env) (req : List String) : List Hotel :=
  (cacheHits env req).map fun kv => hitRecord env kv.2

/-- Records appended by the miss goroutines, lines 184-213. -/
def taskHotels (env : Env) (req : List String) : List Hotel :=
  (pendingIds env req).map fun id => (fetchTask env id).1

/-- Write-backs issued by the miss goroutines, line 210. -/
def taskWriteBacks (env : Env) (req : List String) : List (String × String) :=
  (pendingIds env req).map fun id => (fetchTask env id).2

/-- `GetProfiles` (lines 143-220).  One `GetMulti` with the raw `hotelIds`
list (line 168); `log.Panic` if it failed with anything but
`ErrCacheMiss` (lines 170-171), modelled as `Except.error` carrying the
effects performed so far; otherwise hits are appended, misses fan out to
mongo, and `return res, nil` (line 219). -/
def GetProfiles (env : Env) (req : List String) : Except Effects Outcome :=
  if env.cacheUp then
    Except.ok
      { hotels := hitHotels env req ++ taskHotels env req
        err := none
        effects :=
          { cacheReads := [req]
            storeFetches := pendingIds env req
            writeBacks := taskWriteBacks env req } }
  else
    Except.error { cacheReads := [req], storeFetches := [], writeBacks := [] }

/-- The effect log of a run, whether it panicked or returned. -/
def runEffects : Except Effects Outcome → Effects
  | Except.error e => e
  | Except.ok o => o.effects

/-- The record list of a run that returned (`[]` for a panic). -/
def runHotels : Except Effects Outcome → List Hotel
  | Except.error _ => []
  | Except.ok o => o.hotels

/-!
Instrumentation wrapper, second source file (`package rate`).  Wall-clock
time is passed explicitly as nanoseconds (`time.Time` / `time.Duration`
are integer nanosecond counts in Go); `Duration.Seconds()` divides by
10^9, modelled over `ℚ`.
-/

/-- `Span`: start timestamp (ns) and label tuple.  The opentracing span
and the references to the two metric vectors are kept abstract: the
metric state the vectors point to is threaded explicitly through
`Span.Finish`. -/
structure Span where
  start : ℚ
  labels : List String
deriving DecidableEq

/-- One counter time series and one histogram time series per label
tuple: the current counter value and the list of recorded observations. -/
structure MetricsState where
  counter : List String → ℕ
  histogram : List String → List ℚ

/-- `StartSpan`: records `time.Now()` and the labels. -/
def StartSpan (now : ℚ) (labels : List String) : Span :=
  { start := now, labels := labels }

/-- `Span.Finish` (lines 258-264): increments the counter for the span's
label tuple, observes `time.Now().Sub(span.start).Seconds()` into the
histogram for the same label tuple, and returns that elapsed duration. -/
def Span.Finish (span : Span) (now : ℚ) (st : MetricsState) :
    MetricsState × ℚ :=
  let elapsed := (now - span.start) / 1000000000
  ({ counter := fun l => if l = span.labels then st.counter l + 1 else st.counter l
     histogram := fun l =>
       if l = span.labels then st.histogram l ++ [elapsed] else st.histogram l },
   elapsed)

/-!
Concrete environments used as counterexamples and witnesses.
-/

/-- A record held by the store in the scenarios below. -/
def hotel1 : Hotel := { id := "h1", name := "one" }

/-- A record held by the cache in the end-to-end scenario. -/
def hotel2 : Hotel := { id := "h2", name := "two" }

/-- Cache up but empty, store empty: every id is a miss and a NotFound. -/
def envEmpty : Env :=
  { cacheUp := true
    cache := fun _ => none
    unmarshal := fun _ => none
    store := fun _ => none
    marshal := fun _ => some "" }

/-- Cache unreachable. -/
def envDown : Env :=
  { cacheUp := false
    cache := fun _ => none
    unmarshal := fun _ => none
    store := fun _ => none
    marshal := fun _ => some "" }

/-- A cache hit for `h1` whose payload does not decode, while the store
does hold a record for `h1`. -/
def envBadPayload : Env :=
  { cacheUp := true
    cache := fun id => if id = "h1" then some "garbage" else none
    unmarshal := fun _ => none
    store := fun id => if id = "h1" then some hotel1 else none
    marshal := fun _ => some "enc" }

/-- Cache miss for `h1`, store hit, but the fetched record cannot be
re-encoded for the write-back. -/
def envBadMarshal : Env :=
  { cacheUp := true
    cache := fun _ => none
    unmarshal := fun _ => none
    store := fun id => if id = "h1" then some hotel1 else none
    marshal := fun _ => none }

/-- The spec's end-to-end scenario: cache holds `h2`, store holds `h1`. -/
def envE2E : Env :=
  { cacheUp := true
    cache := fun id => if id = "h2" then some "p2" else none
    unmarshal := fun v => if v = "p2" then some hotel2 else none
    store := fun id => if id = "h1" then some hotel1 else none
    marshal := fun _ => some "enc1" }

/-!
Basic lemmas about the pieces of `GetProfiles`.
-/

/-- Every distinct id is either a cache hit or pending: the two lists
split `dedupIds`. -/
lemma length_cacheHits_add_length_pendingIds (env : Env) (req : List String) :
    (cacheHits env req).length + (pendingIds env req).length
      = (dedupIds req).length := by
  unfold cacheHits pendingIds
  generalize dedupIds req = l
  induction l with
  | nil => rfl
  | cons hd tl ih =>
      cases h : env.cache hd <;>
        simp [List.filterMap_cons, List.filter_cons, h] <;> omega

lemma nodup_pendingIds (env : Env) (req : List String) :
    (pendingIds env req).Nodup :=
  (List.nodup_dedup req).filter _

lemma runEffects_getProfiles_up (env : Env) (req : List String)
    (hup : env.cacheUp = true) :
    runEffects (GetProfiles env req)
      = { cacheReads := [req]
          storeFetches := pendingIds env req
          writeBacks := taskWriteBacks env req } := by
  simp [GetProfiles, hup, runEffects]

lemma runHotels_getProfiles_up (env : Env) (req : List String)
    (hup : env.cacheUp = true) :
    runHotels (GetProfiles env req) = hitHotels env req ++ taskHotels env req := by
  simp [GetProfiles, hup, runHotels]

/-- `true` iff the call returned (second component `nil`) rather than
panicking. -/
def returnsOk : Except Effects Outcome → Bool
  | Except.error _ => false
  | Except.ok _ => true

lemma cacheUp_of_ok (env : Env) (req : List String) (o : Outcome)
    (hok : GetProfiles env req = Except.ok o) : env.cacheUp = true := by
  by_cases hup : env.cacheUp
  · exact hup
  · have hdown : env.cacheUp = false := by simpa using hup
    simp [GetProfiles, hdown] at hok

lemma length_runHotels (env : Env) (req : List String)
    (hup : env.cacheUp = true) :
    (runHotels (GetProfiles env req)).length = (dedupIds req).length := by
  rw [runHotels_getProfiles_up env req hup]
  simp only [hitHotels, taskHotels, List.length_append, List.length_map]
  exact length_cacheHits_add_length_pendingIds env req

lemma mem_taskHotels (env : Env) (req : List String) (id : String)
    (hpend : id ∈ pendingIds env req) :
    (fetchTask env id).1 ∈ taskHotels env req :=
  List.mem_map_of_mem _ hpend

lemma countP_taskKey_eq_zero (env : Env) (id : String) :
    ∀ l : List String, id ∉ l →
      ((l.map fun i => (fetchTask env i).2).countP fun p => p.1 == id) = 0 := by
  intro l
  induction l with
  | nil => intro _; rfl
  | cons hd tl ih =>
      intro hmem
      have hne : ¬ hd = id := by
        intro h; subst h; exact hmem (List.mem_cons_self _ _)
      have htl : id ∉ tl := fun h => hmem (List.mem_cons_of_mem _ h)
      rw [List.map_cons, List.countP_cons, ih htl]
      simp [fetchTask, hne]

lemma countP_taskKey_eq_one (env : Env) (id : String) :
    ∀ l : List String, l.Nodup → id ∈ l →
      ((l.map fun i => (fetchTask env i).2).countP fun p => p.1 == id) = 1 := by
  intro l
  induction l with
  | nil => intro _ h; cases h
  | cons hd tl ih =>
      intro hnd hmem
      rcases List.mem_cons.mp hmem with rfl | hmem'
      · have htl : id ∉ tl := (List.nodup_cons.mp hnd).1
        rw [List.map_cons, List.countP_cons, countP_taskKey_eq_zero env id tl htl]
        simp [fetchTask]
      · have hne : ¬ hd = id := by
          intro h; subst h; exact (List.nodup_cons.mp hnd).1 hmem'
        rw [List.map_cons, List.countP_cons,
          ih (List.nodup_cons.mp hnd).2 hmem']
        simp [fetchTask, hne]

/-!
Claim theorems.
-/

/-- C1, counterexample.  Request `["h3"]`, cache miss, store NotFound:
the failed task still appends the zero-valued record, so the result is
`[Hotel.zero]`, not the empty set the claim demands. -/
theorem C1_counterexample :
    GetProfiles envEmpty ["h3"]
      = Except.ok
          { hotels := [Hotel.zero], err := none,
            effects :=
              { cacheReads := [["h3"]], storeFetches := ["h3"],
                writeBacks := [("h3", "")] } } ∧
    ([Hotel.zero] : List Hotel) ≠ [] :=
  ⟨rfl, by decide⟩

/-- C1, amended.  When the store fetch fails for an identifier among the
cache misses, the task does not drop it: it appends the zero-valued
record, so the failed identifier contributes an empty `Record` to the
Result instead of being absent.  Every other miss whose fetch succeeds
still appears, the returned error is `nil`, and the call as a whole
returns successfully. -/
theorem C1_amended (env : Env) (req : List String)
    (hup : env.cacheUp = true) :
    returnsOk (GetProfiles env req) = true ∧
    (∀ o, GetProfiles env req = Except.ok o → o.err = none) ∧
    (∀ id, id ∈ pendingIds env req → env.store id = none →
      Hotel.zero ∈ runHotels (GetProfiles env req)) ∧
    (∀ id h, id ∈ pendingIds env req → env.store id = some h →
      h ∈ runHotels (GetProfiles env req)) := by
  refine ⟨by simp [GetProfiles, hup, returnsOk], ?_, ?_, ?_⟩
  · intro o hok
    simp [GetProfiles, hup] at hok
    rw [← hok]
  · intro id hpend hst
    rw [runHotels_getProfiles_up env req hup]
    have hz : (fetchTask env id).1 = Hotel.zero := by
      simp [fetchTask, hst, Hotel.zero]
    exact List.mem_append_right _ (hz ▸ mem_taskHotels env req id hpend)
  · intro id h hpend hst
    rw [runHotels_getProfiles_up env req hup]
    have hz : (fetchTask env id).1 = h := by simp [fetchTask, hst]
    exact List.mem_append_right _ (hz ▸ mem_taskHotels env req id hpend)

/-- C1, witness at the concrete scenario `["h3"]`. -/
theorem C1_witness :
    returnsOk (GetProfiles envEmpty ["h3"]) = true ∧
    Hotel.zero ∈ runHotels (GetProfiles envEmpty ["h3"]) := by
  have h := C1_amended envEmpty ["h3"] rfl
  exact ⟨h.1, h.2.2.1 "h3" (by decide) rfl⟩

/-- C2, counterexample.  A cache hit for `h1` whose payload does not
decode (while the store does hold `hotel1`): the identifier does NOT
fall through to a store fetch (`storeFetches = []`), and the record
built from the undecodable payload — the zero value — does enter the
Result in place of the store's record. -/
theorem C2_counterexample :
    GetProfiles envBadPayload ["h1"]
      = Except.ok
          { hotels := [Hotel.zero], err := none,
            effects :=
              { cacheReads := [["h1"]], storeFetches := [],
                writeBacks := [] } } ∧
    "h1" ∉ (runEffects (GetProfiles envBadPayload ["h1"])).storeFetches ∧
    Hotel.zero ∈ runHotels (GetProfiles envBadPayload ["h1"]) ∧
    hotel1 ∉ runHotels (GetProfiles envBadPayload ["h1"]) :=
  ⟨rfl, by decide, by decide, by decide⟩

/-- C2, amended.  A cache hit whose payload fails to deserialize is still
treated as resolved: the `Unmarshal` error is ignored, the zero-valued
record is appended to the Result, and the identifier is removed from the
pending set, so no store fetch is attempted for it (the batch is not
aborted). -/
theorem C2_amended (env : Env) (req : List String) (id v : String)
    (hup : env.cacheUp = true) (hid : id ∈ dedupIds req)
    (hv : env.cache id = some v) (hbad : env.unmarshal v = none) :
    id ∉ (runEffects (GetProfiles env req)).storeFetches ∧
    Hotel.zero ∈ runHotels (GetProfiles env req) := by
  rw [runEffects_getProfiles_up env req hup,
    runHotels_getProfiles_up env req hup]
  constructor
  · show id ∉ pendingIds env req
    intro hmem
    have := (List.mem_filter.mp hmem).2
    rw [hv] at this
    simp at this
  · have hkv : (id, v) ∈ cacheHits env req :=
      List.mem_filterMap.mpr ⟨id, hid, by simp [hv]⟩
    have hz : hitRecord env v = Hotel.zero := by
      simp [hitRecord, hbad, Hotel.zero]
    have hmem : hitRecord env (id, v).2 ∈ hitHotels env req :=
      List.mem_map_of_mem _ hkv
    exact List.mem_append_left _ (hz ▸ hmem)

/-- C2, witness at the concrete bad-payload scenario. -/
theorem C2_witness :
    "h1" ∉ (runEffects (GetProfiles envBadPayload ["h1"])).storeFetches ∧
    Hotel.zero ∈ runHotels (GetProfiles envBadPayload ["h1"]) :=
  C2_amended envBadPayload ["h1"] "h1" "garbage" rfl (by decide)
    (by decide) rfl

/-- C3: any returned Result holds at most one record per distinct
identifier of the request — its length is bounded by the number of
distinct requested identifiers (duplicates in the request add nothing:
cache hits come from a map keyed by identifier, and one task runs per
distinct pending identifier). -/
theorem C3_at_most_one_per_distinct (env : Env) (req : List String)
    (o : Outcome) (hok : GetProfiles env req = Except.ok o) :
    o.hotels.length ≤ (dedupIds req).length := by
  have hup := cacheUp_of_ok env req o hok
  have : o.hotels = runHotels (GetProfiles env req) := by rw [hok]; rfl
  rw [this, length_runHotels env req hup]

/-- C3, witness: the duplicate request `["h1", "h1"]` against the empty
cache and store yields one record for one distinct identifier. -/
theorem C3_witness :
    ([Hotel.zero] : List Hotel).length ≤ (dedupIds ["h1", "h1"]).length :=
  C3_at_most_one_per_distinct envEmpty ["h1", "h1"]
    { hotels := [Hotel.zero], err := none,
      effects :=
        { cacheReads := [["h1", "h1"]], storeFetches := ["h1"],
          writeBacks := [("h1", "")] } } rfl

/-- C4: when `GetMulti` fails with anything but a miss (cache
unreachable), the call panics at once: the run ends in the error branch,
whose effect log shows the single cache read, no store fetch and no
write-back — no degradation to store-only and no retry. -/
theorem C4_cache_fault_fatal (env : Env) (req : List String)
    (hdown : env.cacheUp = false) :
    GetProfiles env req
      = Except.error
          { cacheReads := [req], storeFetches := [], writeBacks := [] } := by
  simp [GetProfiles, hdown]

/-- C4, witness: the unreachable-cache environment on request `["h1"]`. -/
theorem C4_witness :
    GetProfiles envDown ["h1"]
      = Except.error
          { cacheReads := [["h1"]], storeFetches := [], writeBacks := [] } :=
  C4_cache_fault_fatal envDown ["h1"] rfl

/-- C5: the ids fetched from the store are exactly the identifiers still
pending after the cache pass — a duplicate-free list, so exactly one
fetch per such identifier and none for any other; for a pending
identifier whose fetch succeeds, its record is in the Result and exactly
one cache write-back carries its key; and when every requested
identifier is a cache hit, no store fetch is issued at all. -/
theorem C5_miss_store_fetch (env : Env) (req : List String)
    (hup : env.cacheUp = true) :
    (runEffects (GetProfiles env req)).storeFetches = pendingIds env req ∧
    (pendingIds env req).Nodup ∧
    (∀ id h, id ∈ pendingIds env req → env.store id = some h →
      h ∈ runHotels (GetProfiles env req) ∧
      ((runEffects (GetProfiles env req)).writeBacks.countP
          fun p => p.1 == id) = 1) ∧
    ((∀ id, id ∈ req → (env.cache id).isSome = true) →
      (runEffects (GetProfiles env req)).storeFetches = []) := by
  rw [runEffects_getProfiles_up env req hup,
    runHotels_getProfiles_up env req hup]
  refine ⟨rfl, nodup_pendingIds env req, ?_, ?_⟩
  · intro id h hpend hst
    constructor
    · have hz : (fetchTask env id).1 = h := by simp [fetchTask, hst]
      exact List.mem_append_right _ (hz ▸ mem_taskHotels env req id hpend)
    · show ((taskWriteBacks env req).countP fun p => p.1 == id) = 1
      exact countP_taskKey_eq_one env id (pendingIds env req)
        (nodup_pendingIds env req) hpend
  · intro hall
    show pendingIds env req = []
    unfold pendingIds
    rw [List.filter_eq_nil_iff]
    intro a ha
    have := hall a (List.mem_dedup.mp ha)
    cases hcache : env.cache a
    · rw [hcache] at this; simp at this
    · simp [hcache]

/-- C5, witness on the spec's end-to-end scenario: cache holds `h2`,
store holds `h1`, request `["h1", "h2", "h1"]` — exactly one store fetch
(`h1`), `hotel1` in the Result, one write-back keyed `h1`. -/
theorem C5_witness :
    (runEffects (GetProfiles envE2E ["h1", "h2", "h1"])).storeFetches
      = ["h1"] ∧
    hotel1 ∈ runHotels (GetProfiles envE2E ["h1", "h2", "h1"]) ∧
    ((runEffects (GetProfiles envE2E ["h1", "h2", "h1"])).writeBacks.countP
        fun p => p.1 == "h1") = 1 := by
  have h := C5_miss_store_fetch envE2E ["h1", "h2", "h1"] rfl
  have hrec := h.2.2.1 "h1" hotel1 (by decide) (by decide)
  exact ⟨by rw [h.1]; decide, hrec.1, hrec.2⟩

/-- C6, counterexample.  Request `["h1", "h1"]`: the single `GetMulti`
call receives the raw `hotelIds` list `["h1", "h1"]`, which contains a
duplicate key — not the deduplicated set `["h1"]` the claim requires. -/
theorem C6_counterexample :
    (runEffects (GetProfiles envEmpty ["h1", "h1"])).cacheReads
      = [["h1", "h1"]] ∧
    ¬ (["h1", "h1"] : List String).Nodup ∧
    dedupIds ["h1", "h1"] = ["h1"] :=
  ⟨by decide, by decide, by decide⟩

/-- C6, amended.  Exactly one batched cache read is issued per request
(even when the call panics on a cache fault), and the key collection
passed to it is the request's identifier sequence exactly as given,
duplicates included — deduplication happens only in the pending set used
for store fetches, not in the cache read. -/
theorem C6_amended (env : Env) (req : List String) :
    (runEffects (GetProfiles env req)).cacheReads = [req] := by
  by_cases hup : env.cacheUp
  · rw [runEffects_getProfiles_up env req hup]
  · have hdown : env.cacheUp = false := by simpa using hup
    simp [GetProfiles, hdown, runEffects]

/-- C7: `Finish` on a span produced by `StartSpan` returns the elapsed
duration in seconds (nanoseconds divided by 10^9), increments the
counter series of exactly the span's label tuple by 1, appends exactly
that one observation to the histogram series of the same label tuple,
and leaves every other tuple's series untouched. -/
theorem C7_span_finish_metrics (startT now : ℚ) (labels : List String)
    (st : MetricsState) :
    ((StartSpan startT labels).Finish now st).2
      = (now - startT) / 1000000000 ∧
    ((StartSpan startT labels).Finish now st).1.counter labels
      = st.counter labels + 1 ∧
    ((StartSpan startT labels).Finish now st).1.histogram labels
      = st.histogram labels ++ [(now - startT) / 1000000000] ∧
    (∀ l, l ≠ labels →
      ((StartSpan startT labels).Finish now st).1.counter l
          = st.counter l ∧
      ((StartSpan startT labels).Finish now st).1.histogram l
          = st.histogram l) := by
  refine ⟨rfl, ?_, ?_, ?_⟩
  · simp [Span.Finish, StartSpan]
  · simp [Span.Finish, StartSpan]
  · intro l hl
    constructor <;> simp [Span.Finish, StartSpan, hl]

/-- C7, witness: a span started at t = 0 ns and finished at
t = 2·10^9 ns reports 2 seconds and bumps its counter to 1. -/
theorem C7_witness :
    ((StartSpan 0 ["mongo", "profile"]).Finish 2000000000
        { counter := fun _ => 0, histogram := fun _ => [] }).2 = 2 ∧
    ((StartSpan 0 ["mongo", "profile"]).Finish 2000000000
        { counter := fun _ => 0, histogram := fun _ => [] }).1.counter
      ["mongo", "profile"] = 1 := by
  have h := C7_span_finish_metrics 0 2000000000 ["mongo", "profile"]
    { counter := fun _ => 0, histogram := fun _ => [] }
  refine ⟨?_, ?_⟩
  · rw [h.1]; norm_num
  · rw [h.2.1]

/-- C8, counterexample.  Store hit for `h1` whose record cannot be
re-encoded: the write-back is NOT skipped — a `Set` call is still issued
for `h1`, carrying the empty payload (`string(nil)`). -/
theorem C8_counterexample :
    GetProfiles envBadMarshal ["h1"]
      = Except.ok
          { hotels := [hotel1], err := none,
            effects :=
              { cacheReads := [["h1"]], storeFetches := ["h1"],
                writeBacks := [("h1", "")] } } ∧
    ("h1", "") ∈ (runEffects (GetProfiles envBadMarshal ["h1"])).writeBacks :=
  ⟨rfl, by decide⟩

/-- C8, amended.  When re-encoding a fetched record fails, the marshal
error is only logged: the cache write-back for that identifier is still
issued, with the empty byte string as its value; the batch is otherwise
unaffected. -/
theorem C8_amended (env : Env) (req : List String) (id : String)
    (h : Hotel) (hup : env.cacheUp = true)
    (hpend : id ∈ pendingIds env req) (hst : env.store id = some h)
    (hbad : env.marshal h = none) :
    (id, "") ∈ (runEffects (GetProfiles env req)).writeBacks := by
  rw [runEffects_getProfiles_up env req hup]
  show (id, "") ∈ taskWriteBacks env req
  have hz : (fetchTask env id).2 = (id, "") := by
    simp [fetchTask, hst, hbad]
  exact hz ▸ List.mem_map_of_mem _ hpend

/-- C8, witness at the concrete bad-marshal scenario. -/
theorem C8_witness :
    ("h1", "") ∈ (runEffects (GetProfiles envBadMarshal ["h1"])).writeBacks :=
  C8_amended envBadMarshal ["h1"] "h1" hotel1 rfl (by decide)
    (by decide) rfl

/-- C9: the error component of `GetProfiles`' return value is always
`nil` — every `ok` outcome carries `err = none` — and the only non-`ok`
exit is the panic branch, taken exactly when the cache read faults. -/
theorem C9_error_always_nil (env : Env) (req : List String) :
    (∀ o, GetProfiles env req = Except.ok o → o.err = none) ∧
    (returnsOk (GetProfiles env req) = false ↔ env.cacheUp = false) := by
  by_cases hup : env.cacheUp
  · constructor
    · intro o hok
      simp [GetProfiles, hup] at hok
      rw [← hok]
    · simp [GetProfiles, hup, returnsOk]
  · have hdown : env.cacheUp = false := by simpa using hup
    constructor
    · intro o hok
      simp [GetProfiles, hdown] at hok
    · simp [GetProfiles, hdown, returnsOk]

/-- C9, witness: the concrete `["h3"]` run returns with `err = nil`. -/
theorem C9_witness :
    ({ hotels := [Hotel.zero], err := none,
       effects :=
         { cacheReads := [["h3"]], storeFetches := ["h3"],
           writeBacks := [("h3", "")] } } : Outcome).err = none :=
  (C9_error_always_nil envEmpty ["h3"]).1 _ rfl

/-- C10: whenever the cache read does not fault, the returned record
list is the hit records followed by one record per miss task — one entry
per cache hit and one per pending identifier, fetch failure or not — so
its length equals the number of distinct requested identifiers. -/
theorem C10_result_size (env : Env) (req : List String)
    (hup : env.cacheUp = true) :
    runHotels (GetProfiles env req)
      = hitHotels env req ++ taskHotels env req ∧
    (hitHotels env req).length = (cacheHits env req).length ∧
    (taskHotels env req).length = (pendingIds env req).length ∧
    (runHotels (GetProfiles env req)).length = (dedupIds req).length := by
  exact ⟨runHotels_getProfiles_up env req hup, by simp [hitHotels],
    by simp [taskHotels], length_runHotels env req hup⟩

/-- C10, witness: the end-to-end scenario `["h1", "h2", "h1"]` returns
exactly two records for two distinct identifiers. -/
theorem C10_witness :
    (runHotels (GetProfiles envE2E ["h1", "h2", "h1"])).length
      = (dedupIds ["h1", "h2", "h1"]).length :=
  (C10_result_size envE2E ["h1", "h2", "h1"] rfl).2.2.2

end ProfileSvc
